import Mathlib

/-!
Verification development for the pubcast playwright sidecar.

This file gives a shallow embedding, in Lean, of the browser session
manager (src/playwright-sidecar/src/browser-manager.js) and the
fingerprint generator (src/playwright-sidecar/src/fingerprint.js), and
proves the behavioural properties stated in the specification about
them.  Randomness, timers, the filesystem and the browser are made
explicit: random draws become index parameters, Date.now() becomes a
`now` parameter, persisted JSON files become association lists, and
each fallible external call (chromium launch, page.goto, ...) becomes
an `Except String` parameter.  Side effects (saving a session, log
lines, polling) are recorded in explicit event traces.
-/

namespace Pubcast

/-! ### String utilities (JS String.prototype.includes) -/

/-- Is the first character list a leading segment of the second. -/
def leadsList : List Char → List Char → Bool
  | [], _ => true
  | _ :: _, [] => false
  | a :: as, b :: bs => a == b && leadsList as bs

/-- Does `sub` occur contiguously inside `l`. -/
def hasSubList (sub : List Char) : List Char → Bool
  | [] => leadsList sub []
  | c :: cs => leadsList sub (c :: cs) || hasSubList sub cs

/-- Models `s.includes(sub)` from JavaScript. -/
def strIncludes (s sub : String) : Bool := hasSubList sub.data s.data

/-! ### Randomness model

`randomChoice(arr)` in fingerprint.js picks `arr[Math.floor(Math.random()*arr.length)]`,
a uniformly random valid index; we pass the draw in as a natural number
and reduce it modulo the length, so every concrete run of the source
corresponds to some parameter value.  `randomInt(min,max)` is uniform on
`[min, max]`; we model it the same way. -/

def randomChoice (arr : List α) (dflt : α) (i : Nat) : α :=
  arr.getD (i % arr.length) dflt

def randomInt (lo hi i : Nat) : Nat := lo + i % (hi - lo + 1)

/-! ### fingerprint.js: constant pools -/

structure ScreenRes where
  width : Nat
  height : Nat
deriving DecidableEq

def SCREEN_RESOLUTIONS : List ScreenRes :=
  [⟨1920, 1080⟩, ⟨1366, 768⟩, ⟨1536, 864⟩, ⟨1440, 900⟩, ⟨1280, 720⟩, ⟨2560, 1440⟩]

def USER_AGENTS : List String :=
  ["Mozilla/5.0 (Macintosh; Intel Mac OS X 10_15_7) AppleWebKit/537.36 (KHTML, like Gecko) Chrome/120.0.0.0 Safari/537.36",
   "Mozilla/5.0 (Windows NT 10.0; Win64; x64) AppleWebKit/537.36 (KHTML, like Gecko) Chrome/120.0.0.0 Safari/537.36",
   "Mozilla/5.0 (Macintosh; Intel Mac OS X 10_15_7) AppleWebKit/537.36 (KHTML, like Gecko) Chrome/119.0.0.0 Safari/537.36",
   "Mozilla/5.0 (Windows NT 10.0; Win64; x64) AppleWebKit/537.36 (KHTML, like Gecko) Chrome/119.0.0.0 Safari/537.36",
   "Mozilla/5.0 (Macintosh; Intel Mac OS X 10_14_6) AppleWebKit/537.36 (KHTML, like Gecko) Chrome/120.0.0.0 Safari/537.36"]

def TIMEZONES : List String :=
  ["Asia/Shanghai", "Asia/Hong_Kong", "Asia/Tokyo", "Asia/Singapore",
   "America/New_York", "America/Los_Angeles", "Europe/London"]

def LOCALES : List String := ["zh-CN", "zh-TW", "en-US", "en-GB", "ja-JP"]

structure WebglConfig where
  vendor : String
  renderer : String
deriving DecidableEq

def WEBGL_CONFIGS : List WebglConfig :=
  [⟨"Google Inc. (Apple)", "ANGLE (Apple, ANGLE Metal Renderer: Apple M1, Unspecified Version)"⟩,
   ⟨"Google Inc. (Intel)", "ANGLE (Intel, Intel(R) UHD Graphics 630, OpenGL 4.1)"⟩,
   ⟨"Google Inc. (NVIDIA)", "ANGLE (NVIDIA, NVIDIA GeForce RTX 3060 Direct3D11 vs_5_0 ps_5_0, D3D11)"⟩,
   ⟨"Google Inc. (AMD)", "ANGLE (AMD, AMD Radeon RX 6700 XT Direct3D11 vs_5_0 ps_5_0, D3D11)"⟩]

def FONTS : List String :=
  ["Arial", "Arial Black", "Comic Sans MS", "Courier New", "Georgia",
   "Impact", "Times New Roman", "Trebuchet MS", "Verdana", "Helvetica",
   "Microsoft YaHei", "SimSun", "SimHei", "PingFang SC", "Hiragino Sans GB"]

/-! ### fingerprint.js: data model -/

structure ScreenFp where
  width : Nat
  height : Nat
  availWidth : Nat
  availHeight : Nat
  colorDepth : Nat
  pixelDepth : Nat
  devicePixelRatio : ℚ
deriving DecidableEq

structure NavigatorFp where
  userAgent : String
  platform : String
  language : String
  languages : List String
  hardwareConcurrency : Nat
  deviceMemory : Nat
  maxTouchPoints : Nat
  vendor : String
  doNotTrack : Option String
deriving DecidableEq

structure TimezoneFp where
  id : String
  offset : Int
deriving DecidableEq

structure CanvasFp where
  noise : ℚ
  seed : String
deriving DecidableEq

structure AudioFp where
  noise : ℚ
deriving DecidableEq

structure Fingerprint where
  screen : ScreenFp
  navigator : NavigatorFp
  timezone : TimezoneFp
  webgl : WebglConfig
  canvas : CanvasFp
  audio : AudioFp
  fonts : List String
  generatedAt : Nat
deriving DecidableEq

/-- Optional overrides accepted by `generateFingerprint(options)`. -/
structure FpOptions where
  screen : Option ScreenRes := none
  userAgent : Option String := none
  timezone : Option String := none
  locale : Option String := none
  webgl : Option WebglConfig := none

/-- The random draws consumed by one call of `generateFingerprint`. -/
structure FpRand where
  screenIdx : Nat := 0
  uaIdx : Nat := 0
  tzIdx : Nat := 0
  localeIdx : Nat := 0
  webglIdx : Nat := 0
  hwIdx : Nat := 0
  devMemIdx : Nat := 0
  fontHi : Nat := 0
  availCut : Nat := 0
  dprIdx : Nat := 0
  touchIdx : Nat := 0
  canvasNoiseIdx : Nat := 0
  audioNoiseIdx : Nat := 0
  canvasSeed : String := "seed"
  now : Nat := 0

/-- JavaScript `opt || d` on a string option: empty strings are falsy. -/
def orElseStr (o : Option String) (d : String) : String :=
  match o with
  | some s => if s = "" then d else s
  | none => d

/-- `getTimezoneOffset` from fingerprint.js (minutes; unknown ids map to 0). -/
def getTimezoneOffset (timezone : String) : Int :=
  if timezone = "Asia/Shanghai" then -480
  else if timezone = "Asia/Hong_Kong" then -480
  else if timezone = "Asia/Tokyo" then -540
  else if timezone = "Asia/Singapore" then -480
  else if timezone = "America/New_York" then 300
  else if timezone = "America/Los_Angeles" then 480
  else if timezone = "Europe/London" then 0
  else 0

structure Geolocation where
  latitude : ℚ
  longitude : ℚ
deriving DecidableEq

/-- `getGeolocationFromTimezone` from fingerprint.js. -/
def getGeolocationFromTimezone (timezone : String) : Geolocation :=
  if timezone = "Asia/Shanghai" then ⟨31.2304, 121.4737⟩
  else if timezone = "Asia/Hong_Kong" then ⟨22.3193, 114.1694⟩
  else if timezone = "Asia/Tokyo" then ⟨35.6762, 139.6503⟩
  else if timezone = "Asia/Singapore" then ⟨1.3521, 103.8198⟩
  else if timezone = "America/New_York" then ⟨40.7128, -74.0060⟩
  else if timezone = "America/Los_Angeles" then ⟨34.0522, -118.2437⟩
  else if timezone = "Europe/London" then ⟨51.5074, -0.1278⟩
  else ⟨0, 0⟩

/-- `generateFingerprint(options)` from fingerprint.js, with the random
draws passed in explicitly. -/
def generateFingerprint (opts : FpOptions) (r : FpRand) : Fingerprint :=
  let screen := opts.screen.getD (randomChoice SCREEN_RESOLUTIONS ⟨1920, 1080⟩ r.screenIdx)
  let userAgent := orElseStr opts.userAgent (randomChoice USER_AGENTS "" r.uaIdx)
  let timezone := orElseStr opts.timezone (randomChoice TIMEZONES "" r.tzIdx)
  let locale := orElseStr opts.locale (randomChoice LOCALES "" r.localeIdx)
  let webgl := opts.webgl.getD (randomChoice WEBGL_CONFIGS ⟨"", ""⟩ r.webglIdx)
  let isMac := strIncludes userAgent "Macintosh"
  let platform := if isMac then "MacIntel" else "Win32"
  let hardwareConcurrency :=
    if isMac then randomChoice [8, 10, 12] 8 r.hwIdx
    else randomChoice [4, 8, 12, 16] 4 r.hwIdx
  let deviceMemory := randomChoice [4, 8, 16, 32] 4 r.devMemIdx
  let availableFonts := FONTS.take (randomInt 10 FONTS.length r.fontHi)
  { screen :=
      { width := screen.width
        height := screen.height
        availWidth := screen.width
        availHeight := screen.height - randomInt 30 50 r.availCut
        colorDepth := 24
        pixelDepth := 24
        devicePixelRatio := randomChoice [(1 : ℚ), 1.25, 1.5, 2] 1 r.dprIdx }
    navigator :=
      { userAgent := userAgent
        platform := platform
        language := locale
        languages := [locale, (locale.splitOn "-").headD ""]
        hardwareConcurrency := hardwareConcurrency
        deviceMemory := deviceMemory
        maxTouchPoints := if isMac then 0 else randomChoice [0, 5, 10] 0 r.touchIdx
        vendor := "Google Inc."
        doNotTrack := none }
    timezone := { id := timezone, offset := getTimezoneOffset timezone }
    webgl := webgl
    canvas := { noise := (randomInt 1 10 r.canvasNoiseIdx : ℚ) / 100, seed := r.canvasSeed }
    audio := { noise := (randomInt 1 5 r.audioNoiseIdx : ℚ) / 1000 }
    fonts := availableFonts
    generatedAt := r.now }

structure Viewport where
  width : Nat
  height : Nat
deriving DecidableEq

/-- The Playwright context options produced by `applyFingerprintToContext`. -/
structure ContextOptions where
  userAgent : String
  viewport : Option Viewport
  deviceScaleFactor : ℚ
  locale : String
  timezoneId : String
  permissions : List String
  geolocation : Geolocation
deriving DecidableEq

/-- `applyFingerprintToContext(fingerprint)` from fingerprint.js. -/
def applyFingerprintToContext (fp : Fingerprint) : ContextOptions :=
  { userAgent := fp.navigator.userAgent
    viewport := some ⟨fp.screen.width, fp.screen.height⟩
    deviceScaleFactor := fp.screen.devicePixelRatio
    locale := fp.navigator.language
    timezoneId := fp.timezone.id
    permissions := ["geolocation"]
    geolocation := getGeolocationFromTimezone fp.timezone.id }

/-! ### Association-list maps

`activeBrowsers` and `loginWatchers` are JS `Map`s keyed by accountId;
the persisted `fingerprint.json` / `cookies.json` files form a map keyed
by accountId as well.  We embed all of them as association lists. -/

/-- `map.get(a)` on an association list. -/
def alookup (a : String) : List (String × β) → Option β
  | [] => none
  | p :: ps => if p.1 = a then some p.2 else alookup a ps

/-- `map.delete(a)`: drops every binding of key `a`. -/
def eraseKey (a : String) : List (String × β) → List (String × β)
  | [] => []
  | p :: ps => if p.1 = a then eraseKey a ps else p :: eraseKey a ps

/-- `map.set(a, v)` / overwriting `writeJson`: bind `a` to `v`. -/
def storeSet (a : String) (v : β) (l : List (String × β)) : List (String × β) :=
  (a, v) :: eraseKey a l

/-- Replace the value bound to `a` in place (models mutating the session
object that the map already holds). -/
def updateKey (a : String) (v : β) : List (String × β) → List (String × β)
  | [] => []
  | p :: ps => if p.1 = a then (a, v) :: ps else p :: updateKey a v ps

/-- Remove a timer id from the set of live interval timers
(models `clearInterval`). -/
def clearTimer (tid : Nat) : List (Nat × String) → List (Nat × String)
  | [] => []
  | p :: ps => if p.1 = tid then clearTimer tid ps else p :: clearTimer tid ps

/-! ### browser-manager.js: data model -/

def PROFILES_DIR : String := "profiles"

/-- `getProfilePath(accountId)` from browser-manager.js. -/
def getProfilePath (accountId : String) : String := PROFILES_DIR ++ "/" ++ accountId

def noBrowserMsg : String := "No active browser for this account"

def chromeNotInstalledMsg : String := "Chrome not installed. Please install Google Chrome."

/-- The substring `launchBrowser` looks for in a launch exception
(the apostrophe is written as an escape). -/
def execMissingPat : String := "Executable doesn\x27t exist"

structure ProxyCfg where
  protocol : Option String := none
  host : String
  port : Nat
  username : Option String := none
  password : Option String := none
deriving DecidableEq

structure ProxyOptions where
  server : String
  username : Option String := none
  password : Option String := none
deriving DecidableEq

/-- The context options `launchBrowser` builds: the fingerprint options
spread first, then the explicit overrides, plus the optional proxy. -/
structure SessionContextOptions where
  userAgent : String
  viewport : Option Viewport
  deviceScaleFactor : ℚ
  locale : String
  timezoneId : String
  permissions : List String
  geolocation : Geolocation
  javaScriptEnabled : Bool
  ignoreHTTPSErrors : Bool
  proxy : Option ProxyOptions
deriving DecidableEq

/-- The `contextOptions` object assembled inside `launchBrowser`
(browser-manager.js lines 267 to 293): spread of
`applyFingerprintToContext(fingerprint)` with `viewport: null`,
locale defaulted, `timezoneId` forced to Asia/Shanghai, and the proxy
block when one is supplied. -/
def buildContextOptions (fp : Fingerprint) (proxy : Option ProxyCfg) : SessionContextOptions :=
  let fo := applyFingerprintToContext fp
  let base : SessionContextOptions :=
    { userAgent := fo.userAgent
      viewport := none
      deviceScaleFactor := fo.deviceScaleFactor
      locale := orElseStr (some fp.navigator.language) "zh-CN"
      timezoneId := "Asia/Shanghai"
      permissions := fo.permissions
      geolocation := fo.geolocation
      javaScriptEnabled := true
      ignoreHTTPSErrors := true
      proxy := none }
  match proxy with
  | none => base
  | some p =>
    let server := (orElseStr p.protocol "http") ++ "://" ++ p.host ++ ":" ++ toString p.port
    match p.username, p.password with
    | some u, some pw =>
      if u ≠ "" ∧ pw ≠ "" then
        { base with proxy := some { server := server, username := some u, password := some pw } }
      else { base with proxy := some { server := server } }
    | _, _ => { base with proxy := some { server := server } }

/-- One entry of the `activeBrowsers` map.  The browser context handle is
abstracted by the options it was opened with plus the cookies it
currently holds. -/
structure Session where
  fingerprint : Fingerprint
  proxy : Option ProxyCfg
  platformId : Option String
  userDataDir : String
  launchedAt : Nat
  contextOptions : SessionContextOptions
  cookies : List String
  isLoggedIn : Bool := false
  loginDetectedAt : Option Nat := none
deriving DecidableEq

/-- The mutable module state of browser-manager.js: the two registries,
the set of live interval timers (with the account that created each), a
fresh-id counter for timers, and the persisted per-account files. -/
structure BMState where
  activeBrowsers : List (String × Session) := []
  loginWatchers : List (String × Nat) := []
  liveTimers : List (Nat × String) := []
  nextTimerId : Nat := 0
  fpStore : List (String × Fingerprint) := []
  cookieStore : List (String × List String) := []
deriving DecidableEq

/-! ### browser-manager.js: fingerprint persistence and cookies -/

/-- `loadOrCreateFingerprint(accountId)`: return the persisted
fingerprint when `fingerprint.json` exists for the account, otherwise
generate one, persist it, and return it. -/
def loadOrCreateFingerprint (accountId : String) (r : FpRand)
    (store : List (String × Fingerprint)) : Fingerprint × List (String × Fingerprint) :=
  match alookup accountId store with
  | some fp => (fp, store)
  | none =>
    let fp := generateFingerprint {} r
    (fp, storeSet accountId fp store)

structure SaveResult where
  success : Bool
  error : Option String := none
  cookieCount : Option Nat := none
deriving DecidableEq

/-- `saveSession(accountId)`: read the cookies of the session context
and persist them to `cookies.json`. -/
def saveSession (accountId : String) (st : BMState) : SaveResult × BMState :=
  match alookup accountId st.activeBrowsers with
  | none => ({ success := false, error := some noBrowserMsg }, st)
  | some s =>
    ({ success := true, cookieCount := some s.cookies.length },
     { st with cookieStore := storeSet accountId s.cookies st.cookieStore })

/-! ### browser-manager.js: login watcher registry -/

/-- `stopLoginWatcher(accountId)`: clear the interval timer registered
for the account, if any, and drop the registry entry. -/
def stopLoginWatcher (accountId : String) (st : BMState) : BMState :=
  match alookup accountId st.loginWatchers with
  | some tid =>
    { st with loginWatchers := eraseKey accountId st.loginWatchers
              liveTimers := clearTimer tid st.liveTimers }
  | none => st

/-- `startLoginWatcher(accountId)`, registry part: stop any existing
watcher for the account first, then register a fresh interval timer. -/
def startLoginWatcher (accountId : String) (st : BMState) : BMState :=
  let st1 := stopLoginWatcher accountId st
  { st1 with loginWatchers := (accountId, st1.nextTimerId) :: st1.loginWatchers
             liveTimers := (st1.nextTimerId, accountId) :: st1.liveTimers
             nextTimerId := st1.nextTimerId + 1 }

/-! ### browser-manager.js: launchBrowser -/

structure LaunchInput where
  accountId : String
  platformId : Option String := none
  proxy : Option ProxyCfg := none
  headless : Bool := false

structure LaunchResult where
  success : Bool
  accountId : String
  message : Option String := none
  fingerprint : Option Fingerprint := none
  error : Option String := none
deriving DecidableEq

/-- Externally visible steps a launch may take; the already-active early
return performs none of them. -/
inductive LaunchEffect
  | loadFingerprint
  | openContext
deriving DecidableEq

/-- `launchBrowser(options)`.  The outcome of
`chromium.launchPersistentContext` is passed in as `launchOutcome`
(`.error e` when the call throws with message `e`). -/
def launchBrowser (inp : LaunchInput) (r : FpRand) (launchOutcome : Except String Unit)
    (now : Nat) (st : BMState) : LaunchResult × BMState × List LaunchEffect :=
  if (alookup inp.accountId st.activeBrowsers).isSome then
    ({ success := true, accountId := inp.accountId,
       message := some "Browser already active" }, st, [])
  else
    let fpPair := loadOrCreateFingerprint inp.accountId r st.fpStore
    let fp := fpPair.1
    let st1 := { st with fpStore := fpPair.2 }
    let ctxOpts := buildContextOptions fp inp.proxy
    match launchOutcome with
    | .error e =>
      let msg := if strIncludes e execMissingPat then chromeNotInstalledMsg else e
      ({ success := false, accountId := inp.accountId, error := some msg },
       st1, [.loadFingerprint])
    | .ok _ =>
      let sess : Session :=
        { fingerprint := fp
          proxy := inp.proxy
          platformId := inp.platformId
          userDataDir := getProfilePath inp.accountId
          launchedAt := now
          contextOptions := ctxOpts
          cookies := [] }
      ({ success := true, accountId := inp.accountId,
         message := some "Browser launched successfully", fingerprint := some fp },
       { st1 with activeBrowsers := (inp.accountId, sess) :: st1.activeBrowsers },
       [.loadFingerprint, .openContext])

/-! ### browser-manager.js: per-session operations -/

structure CloseResult where
  success : Bool
  error : Option String := none
deriving DecidableEq

/-- `closeBrowser(accountId, saveSessionBeforeClose)`: stop the watcher,
optionally save, then close the context and remove the map entry.  When
`browserContext.close()` throws, the entry is not removed (the delete
sits after the await in the try block). -/
def closeBrowser (accountId : String) (saveFlag : Bool) (closeOutcome : Except String Unit)
    (st : BMState) : CloseResult × BMState :=
  match alookup accountId st.activeBrowsers with
  | none => ({ success := false, error := some noBrowserMsg }, st)
  | some _ =>
    let st1 := stopLoginWatcher accountId st
    let st2 := if saveFlag then (saveSession accountId st1).2 else st1
    match closeOutcome with
    | .ok _ =>
      ({ success := true }, { st2 with activeBrowsers := eraseKey accountId st2.activeBrowsers })
    | .error e => ({ success := false, error := some e }, st2)

structure NavResult where
  success : Bool
  url : Option String := none
  error : Option String := none
deriving DecidableEq

structure ShotResult where
  success : Bool
  path : Option String := none
  error : Option String := none
deriving DecidableEq

structure ExecResult where
  success : Bool
  error : Option String := none
deriving DecidableEq

/-- `takeScreenshot(accountId)`. -/
def takeScreenshot (accountId : String) (shotOutcome : Except String Unit) (now : Nat)
    (st : BMState) : ShotResult × BMState :=
  match alookup accountId st.activeBrowsers with
  | none => ({ success := false, error := some noBrowserMsg }, st)
  | some _ =>
    match shotOutcome with
    | .ok _ =>
      ({ success := true,
         path := some (getProfilePath accountId ++ "/screenshot-" ++ toString now ++ ".png") }, st)
    | .error e => ({ success := false, error := some e }, st)

/-- `executeScript(accountId, script)`. -/
def executeScript (accountId : String) (evalOutcome : Except String Unit)
    (st : BMState) : ExecResult × BMState :=
  match alookup accountId st.activeBrowsers with
  | none => ({ success := false, error := some noBrowserMsg }, st)
  | some _ =>
    match evalOutcome with
    | .ok _ => ({ success := true }, st)
    | .error e => ({ success := false, error := some e }, st)

/-! ### browser-manager.js: checkLoginStatus -/

/-- What the platform adapter did when asked for the login status:
there was no adapter for the platform id, it answered, or it threw. -/
inductive AdapterOutcome
  | noAdapter
  | status (isLoggedIn : Bool)
  | failure (msg : String)
deriving DecidableEq

structure StatusResult where
  success : Bool
  isLoggedIn : Bool
deriving DecidableEq

/-- `checkLoginStatus(accountId)`, given the session lookup result and
the adapter outcome.  An adapter exception is caught inside the
function and surfaces as `success = false`; with no adapter the
fallback is a cookie-count heuristic. -/
def checkLoginStatus (sess : Option Session) (adapter : AdapterOutcome) : StatusResult :=
  match sess with
  | none => ⟨false, false⟩
  | some s =>
    match adapter with
    | .noAdapter => ⟨true, decide (5 < s.cookies.length)⟩
    | .status b => ⟨true, b⟩
    | .failure _ => ⟨false, false⟩

/-! ### browser-manager.js: login watcher ticks -/

def maxChecks : Nat := 120

def watcherIntervalMs : Nat := 1000

/-- The closure state of one watcher (`wasLoggedIn`, `checkCount`,
and whether the interval has been cleared). -/
structure WatcherState where
  wasLoggedIn : Bool := false
  checkCount : Nat := 0
  stopped : Bool := false
deriving DecidableEq

/-- Observable events of one watcher tick.  `save` is the session-save
side effect; the `log…` constructors are the console lines the tick
prints.  The catch block of the tick body prints nothing, so no
constructor is ever emitted for a swallowed tick error. -/
inductive WEffect
  | checkStatus
  | save
  | logTimeout
  | logClosed
  | logLoginDetected
  | logAutoSaved
  | logLogout
deriving DecidableEq

/-- Is the event a console log line. -/
def isLogEvent : WEffect → Bool
  | .checkStatus => false
  | .save => false
  | _ => true

/-- One tick of the `setInterval` callback in `startLoginWatcher`.
`adapter` is what the platform adapter does on this tick and `now` is
`Date.now()`. -/
def watcherTick (accountId : String) (w : WatcherState) (st : BMState)
    (adapter : AdapterOutcome) (now : Nat) : WatcherState × BMState × List WEffect :=
  let count := w.checkCount + 1
  if maxChecks < count then
    ({ w with checkCount := count, stopped := true },
     stopLoginWatcher accountId st, [.logTimeout])
  else
    match alookup accountId st.activeBrowsers with
    | none =>
      ({ w with checkCount := count, stopped := true },
       stopLoginWatcher accountId st, [.logClosed])
    | some s =>
      let status := checkLoginStatus (some s) adapter
      if status.success && status.isLoggedIn && !w.wasLoggedIn then
        let st1 := (saveSession accountId st).2
        let s1 := { s with isLoggedIn := true, loginDetectedAt := some now }
        ({ w with checkCount := count, wasLoggedIn := true },
         { st1 with activeBrowsers := updateKey accountId s1 st1.activeBrowsers },
         [.checkStatus, .logLoginDetected, .save, .logAutoSaved])
      else if status.success && !status.isLoggedIn && w.wasLoggedIn then
        let s1 := { s with isLoggedIn := false }
        ({ w with checkCount := count, wasLoggedIn := false },
         { st with activeBrowsers := updateKey accountId s1 st.activeBrowsers },
         [.checkStatus, .logLogout])
      else
        ({ w with checkCount := count }, st, [.checkStatus])

/-- Drive a watcher over a list of ticks (adapter outcome and clock per
tick), recording each tick as its own event list.  Once the interval
has been cleared no further tick fires. -/
def runWatcher (accountId : String) (w : WatcherState) (st : BMState) :
    List (AdapterOutcome × Nat) → WatcherState × BMState × List (List WEffect)
  | [] => (w, st, [])
  | (ad, now) :: rest =>
    if w.stopped then (w, st, [])
    else
      let r1 := watcherTick accountId w st ad now
      let r2 := runWatcher accountId r1.1 r1.2.1 rest
      (r2.1, r2.2.1, r1.2.2 :: r2.2.2)

/-- Saves fired in one tick. -/
def countSaves (evs : List WEffect) : Nat := evs.countP (fun e => e == WEffect.save)

/-- Login-status checks performed in one tick. -/
def countChecks (evs : List WEffect) : Nat := evs.countP (fun e => e == WEffect.checkStatus)

/-! ### browser-manager.js: Cloudflare challenge loop -/

def cfMaxAttempts : Nat := 12

def cfWaitMs : Nat := 5000

/-- Observable events of `handleCloudflareChallenge`:
`pollChallenge i` is the call of `isCloudflareChallenge` at attempt `i`,
`injectPointer i` the synthetic pointer movement of
`simulateHumanBehavior` during attempt `i`, `initialInject` the pointer
movement before the loop, `wait ms` a sleep, `humanPause` the short
randomized delay on success. -/
inductive CfEvent
  | initialInject
  | pollChallenge (attempt : Nat)
  | injectPointer (attempt : Nat)
  | wait (ms : Nat)
  | humanPause
deriving DecidableEq

/-- The while loop of `handleCloudflareChallenge`, unrolled on the
remaining attempt budget (`fuel = cfMaxAttempts - attempt`).
`poll i = true` means `isCloudflareChallenge` still sees a challenge at
attempt `i`. -/
def cfLoop (poll : Nat → Bool) (attempt fuel : Nat) : Bool × List CfEvent :=
  match fuel with
  | 0 => (false, [])
  | fuel + 1 =>
    if poll attempt then
      let injected := if attempt % 3 = 0 then [CfEvent.injectPointer attempt] else []
      let r := cfLoop poll (attempt + 1) fuel
      (r.1, CfEvent.pollChallenge attempt :: injected ++ CfEvent.wait cfWaitMs :: r.2)
    else
      (true, [CfEvent.pollChallenge attempt, CfEvent.humanPause])

/-- `handleCloudflareChallenge(page)`. -/
def handleCloudflareChallenge (poll : Nat → Bool) : Bool × List CfEvent :=
  let r := cfLoop poll 0 cfMaxAttempts
  (r.1, CfEvent.initialInject :: r.2)

/-- Attempt indices of the poll events, in order. -/
def pollIdxs (evs : List CfEvent) : List Nat :=
  evs.filterMap fun e =>
    match e with
    | .pollChallenge i => some i
    | _ => none

/-- Attempt indices of the in-loop pointer injections, in order. -/
def injectIdxs (evs : List CfEvent) : List Nat :=
  evs.filterMap fun e =>
    match e with
    | .injectPointer i => some i
    | _ => none

/-- Durations of the waits, in order. -/
def waitsOf (evs : List CfEvent) : List Nat :=
  evs.filterMap fun e =>
    match e with
    | .wait ms => some ms
    | _ => none

/-! ### browser-manager.js: navigateTo -/

/-- `navigateTo(accountId, url, options)`.  `gotoOutcome` is what
`page.goto` did; when a challenge is detected the bounded challenge
loop runs; unless the caller opts out, the login watcher is started. -/
def navigateTo (accountId url : String) (watchLogin : Bool)
    (gotoOutcome : Except String Unit) (cfDetected : Bool) (cfPoll : Nat → Bool)
    (st : BMState) : NavResult × BMState :=
  match alookup accountId st.activeBrowsers with
  | none => ({ success := false, error := some noBrowserMsg }, st)
  | some _ =>
    match gotoOutcome with
    | .error e => ({ success := false, error := some e }, st)
    | .ok _ =>
      let _cfPassed := if cfDetected then (handleCloudflareChallenge cfPoll).1 else true
      let st1 := if watchLogin then startLoginWatcher accountId st else st
      ({ success := true, url := some url }, st1)

/-! ### Lemmas about the map operations -/

theorem alookup_eraseKey_self (a : String) (l : List (String × β)) :
    alookup a (eraseKey a l) = none := by
  induction l with
  | nil => rfl
  | cons q qs ih =>
    by_cases hq : q.1 = a
    · simpa [eraseKey, hq] using ih
    · simp [eraseKey, alookup, hq, ih]

theorem alookup_eraseKey_ne {b a : String} (h : b ≠ a) (l : List (String × β)) :
    alookup b (eraseKey a l) = alookup b l := by
  induction l with
  | nil => rfl
  | cons q qs ih =>
    by_cases hq : q.1 = a
    · simp [eraseKey, alookup, hq, ih, Ne.symm h]
    · by_cases hb : q.1 = b
      · simp [eraseKey, alookup, hq, hb, h]
      · simp [eraseKey, alookup, hq, hb, ih]

theorem mem_eraseKey {p : String × β} {a : String} {l : List (String × β)}
    (h : p ∈ eraseKey a l) : p ∈ l ∧ p.1 ≠ a := by
  induction l with
  | nil => simp [eraseKey] at h
  | cons q qs ih =>
    by_cases hq : q.1 = a
    · rw [eraseKey, if_pos hq] at h
      rcases ih h with ⟨h1, h2⟩
      exact ⟨List.mem_cons_of_mem _ h1, h2⟩
    · rw [eraseKey, if_neg hq] at h
      rcases List.mem_cons.mp h with h1 | h1
      · subst h1; exact ⟨List.mem_cons_self _ _, hq⟩
      · rcases ih h1 with ⟨h2, h3⟩
        exact ⟨List.mem_cons_of_mem _ h2, h3⟩

theorem eraseKey_sublist (a : String) (l : List (String × β)) :
    List.Sublist (eraseKey a l) l := by
  induction l with
  | nil => simp [eraseKey]
  | cons q qs ih =>
    by_cases hq : q.1 = a
    · rw [eraseKey, if_pos hq]
      exact ih.cons _
    · rw [eraseKey, if_neg hq]
      exact ih.cons₂ _

theorem nodupKeys_eraseKey {a : String} {l : List (String × β)}
    (h : (l.map Prod.fst).Nodup) : ((eraseKey a l).map Prod.fst).Nodup :=
  List.Nodup.sublist ((eraseKey_sublist a l).map Prod.fst) h

theorem mem_clearTimer {p : Nat × String} {t : Nat} {l : List (Nat × String)}
    (h : p ∈ clearTimer t l) : p ∈ l ∧ p.1 ≠ t := by
  induction l with
  | nil => simp [clearTimer] at h
  | cons q qs ih =>
    by_cases hq : q.1 = t
    · rw [clearTimer, if_pos hq] at h
      rcases ih h with ⟨h1, h2⟩
      exact ⟨List.mem_cons_of_mem _ h1, h2⟩
    · rw [clearTimer, if_neg hq] at h
      rcases List.mem_cons.mp h with h1 | h1
      · subst h1; exact ⟨List.mem_cons_self _ _, hq⟩
      · rcases ih h1 with ⟨h2, h3⟩
        exact ⟨List.mem_cons_of_mem _ h2, h3⟩

theorem alookup_storeSet_self (a : String) (v : β) (l : List (String × β)) :
    alookup a (storeSet a v l) = some v := by
  simp [storeSet, alookup]

/-! ### The watcher-registry invariant (claim C10) -/

/-- Registry invariant: keys of `loginWatchers` are unique, and every
live interval timer is the one currently registered for its account. -/
def WatcherInv (st : BMState) : Prop :=
  (st.loginWatchers.map Prod.fst).Nodup ∧
  ∀ p ∈ st.liveTimers, alookup p.2 st.loginWatchers = some p.1

theorem stopLoginWatcher_lookup_none (a : String) (st : BMState) :
    alookup a (stopLoginWatcher a st).loginWatchers = none := by
  unfold stopLoginWatcher
  cases hw : alookup a st.loginWatchers with
  | some tid => simpa using alookup_eraseKey_self a st.loginWatchers
  | none => simpa using hw

theorem watcherInv_stop (a : String) (st : BMState) (hinv : WatcherInv st) :
    WatcherInv (stopLoginWatcher a st) := by
  obtain ⟨h1, h2⟩ := hinv
  unfold stopLoginWatcher
  cases hw : alookup a st.loginWatchers with
  | none => exact ⟨h1, h2⟩
  | some tid =>
    refine ⟨nodupKeys_eraseKey h1, ?_⟩
    intro p hp
    obtain ⟨hmem, hne⟩ := mem_clearTimer hp
    by_cases hpa : p.2 = a
    · exfalso
      have := h2 p hmem
      rw [hpa, hw] at this
      exact hne (Option.some.inj this).symm
    · rw [alookup_eraseKey_ne hpa]
      exact h2 p hmem

theorem not_mem_keys_of_alookup_none {a : String} {l : List (String × β)}
    (h : alookup a l = none) : a ∉ l.map Prod.fst := by
  induction l with
  | nil => simp
  | cons q qs ih =>
    by_cases hq : q.1 = a
    · rw [alookup, if_pos hq] at h
      exact Option.noConfusion h
    · rw [alookup, if_neg hq] at h
      simp only [List.map_cons, List.mem_cons]
      rintro (h1 | h1)
      · exact hq h1.symm
      · exact ih h h1

theorem watcherInv_start (a : String) (st : BMState) (hinv : WatcherInv st) :
    WatcherInv (startLoginWatcher a st) := by
  have hstop := watcherInv_stop a st hinv
  have hnone := stopLoginWatcher_lookup_none a st
  obtain ⟨h1, h2⟩ := hstop
  unfold startLoginWatcher
  constructor
  · simp only [List.map_cons]
    exact List.nodup_cons.mpr ⟨not_mem_keys_of_alookup_none hnone, h1⟩
  · intro p hp
    rcases List.mem_cons.mp hp with hp1 | hp1
    · subst hp1
      simp [alookup]
    · by_cases hpa : p.2 = a
      · exfalso
        have := h2 p hp1
        rw [hpa, hnone] at this
        exact Option.noConfusion this
      · have hne : a ≠ p.2 := fun hh => hpa hh.symm
        simpa [alookup, hne] using h2 p hp1

/-- A sequence of watcher-registry operations. -/
inductive WatcherOp
  | start (a : String)
  | stop (a : String)

def applyWatcherOp (st : BMState) : WatcherOp → BMState
  | .start a => startLoginWatcher a st
  | .stop a => stopLoginWatcher a st

def applyWatcherOps (st : BMState) : List WatcherOp → BMState
  | [] => st
  | op :: ops => applyWatcherOps (applyWatcherOp st op) ops

/-- The module state at process start: empty registries. -/
def emptyBM : BMState := {}

theorem watcherInv_applyWatcherOps (ops : List WatcherOp) (st : BMState)
    (h : WatcherInv st) : WatcherInv (applyWatcherOps st ops) := by
  induction ops generalizing st with
  | nil => exact h
  | cons op ops ih =>
    cases op with
    | start a => exact ih _ (watcherInv_start a st h)
    | stop a => exact ih _ (watcherInv_stop a st h)

theorem watcherInv_empty : WatcherInv emptyBM := by
  constructor
  · simp [emptyBM]
  · intro p hp
    simp [emptyBM] at hp

/-- Claim C10: after any sequence of startLoginWatcher/stopLoginWatcher
calls from the initial state, the watcher registry holds at most one
entry per accountId and no account owns two live interval timers;
stopLoginWatcher removes the registry entry and clears its timer, and
startLoginWatcher (which stops any existing watcher first) therefore
never leaves a second timer running for the account. -/
theorem C10_watcher_registry_at_most_one (ops : List WatcherOp) :
    (((applyWatcherOps emptyBM ops).loginWatchers.map Prod.fst).Nodup ∧
      ∀ a t1 t2, (t1, a) ∈ (applyWatcherOps emptyBM ops).liveTimers →
        (t2, a) ∈ (applyWatcherOps emptyBM ops).liveTimers → t1 = t2) ∧
    (∀ st : BMState, ∀ a,
      alookup a (stopLoginWatcher a st).loginWatchers = none) ∧
    (∀ st : BMState, ∀ a tid, alookup a st.loginWatchers = some tid →
      ∀ p ∈ (stopLoginWatcher a st).liveTimers, p.1 ≠ tid) := by
  refine ⟨?_, ?_, ?_⟩
  · obtain ⟨h1, h2⟩ := watcherInv_applyWatcherOps ops emptyBM watcherInv_empty
    refine ⟨h1, ?_⟩
    intro a t1 t2 hm1 hm2
    have e1 := h2 (t1, a) hm1
    have e2 := h2 (t2, a) hm2
    simp only at e1 e2
    rw [e1] at e2
    exact Option.some.inj e2
  · intro st a
    exact stopLoginWatcher_lookup_none a st
  · intro st a tid hw p hp
    unfold stopLoginWatcher at hp
    rw [hw] at hp
    exact (mem_clearTimer hp).2

/-- Witness for C10 at a concrete operation sequence: starting the
watcher twice for the same account leaves exactly the fresh timer live,
and the uniqueness clause applies to it. -/
theorem C10_watcher_registry_at_most_one_witness :
    ((1, "a") ∈ (applyWatcherOps emptyBM [.start "a", .start "a"]).liveTimers ∧
      (applyWatcherOps emptyBM [.start "a", .start "a"]).liveTimers.length = 1) ∧
    (1 : Nat) = 1 := by
  refine ⟨by decide, ?_⟩
  exact (C10_watcher_registry_at_most_one [.start "a", .start "a"]).1.2 "a" 1 1
    (by decide) (by decide)

/-! ### Lemmas about watcher ticks -/

theorem alookup_updateKey_self {a : String} {v u : β} {l : List (String × β)}
    (h : alookup a l = some u) : alookup a (updateKey a v l) = some v := by
  induction l with
  | nil => exact Option.noConfusion h
  | cons q qs ih =>
    by_cases hq : q.1 = a
    · rw [updateKey, if_pos hq]
      simp [alookup]
    · rw [updateKey, if_neg hq]
      rw [alookup, if_neg hq] at h
      rw [alookup, if_neg hq]
      exact ih h

theorem stopLoginWatcher_activeBrowsers (a : String) (st : BMState) :
    (stopLoginWatcher a st).activeBrowsers = st.activeBrowsers := by
  unfold stopLoginWatcher
  cases alookup a st.loginWatchers <;> rfl

theorem runWatcher_stopped {a : String} {w : WatcherState} {st : BMState}
    (l : List (AdapterOutcome × Nat)) (h : w.stopped = true) :
    runWatcher a w st l = (w, st, []) := by
  cases l with
  | nil => rfl
  | cons p rest =>
    obtain ⟨ad, now⟩ := p
    simp [runWatcher, h]

theorem watcherTick_timeout (a : String) (w : WatcherState) (st : BMState)
    (ad : AdapterOutcome) (now : Nat) (hc : maxChecks < w.checkCount + 1) :
    watcherTick a w st ad now =
      ({ w with checkCount := w.checkCount + 1, stopped := true },
       stopLoginWatcher a st, [.logTimeout]) := by
  unfold watcherTick
  rw [if_pos hc]

theorem watcherTick_closed (a : String) (w : WatcherState) (st : BMState)
    (ad : AdapterOutcome) (now : Nat) (hc : ¬ maxChecks < w.checkCount + 1)
    (hs : alookup a st.activeBrowsers = none) :
    watcherTick a w st ad now =
      ({ w with checkCount := w.checkCount + 1, stopped := true },
       stopLoginWatcher a st, [.logClosed]) := by
  unfold watcherTick
  rw [if_neg hc, hs]

theorem watcherTick_login_detected (a : String) (w : WatcherState) (st : BMState)
    (s : Session) (ad : AdapterOutcome) (now : Nat)
    (hc : ¬ maxChecks < w.checkCount + 1)
    (hs : alookup a st.activeBrowsers = some s)
    (h1 : (checkLoginStatus (some s) ad).success = true)
    (h2 : (checkLoginStatus (some s) ad).isLoggedIn = true)
    (h3 : w.wasLoggedIn = false) :
    watcherTick a w st ad now =
      ({ w with checkCount := w.checkCount + 1, wasLoggedIn := true },
       { st with
           activeBrowsers :=
             updateKey a { s with isLoggedIn := true, loginDetectedAt := some now }
               st.activeBrowsers
           cookieStore := storeSet a s.cookies st.cookieStore },
       [.checkStatus, .logLoginDetected, .save, .logAutoSaved]) := by
  unfold watcherTick
  rw [if_neg hc, hs]
  simp [h1, h2, h3, saveSession, hs]

theorem watcherTick_still_logged_in (a : String) (w : WatcherState) (st : BMState)
    (s : Session) (ad : AdapterOutcome) (now : Nat)
    (hc : ¬ maxChecks < w.checkCount + 1)
    (hs : alookup a st.activeBrowsers = some s)
    (h1 : (checkLoginStatus (some s) ad).success = true)
    (h2 : (checkLoginStatus (some s) ad).isLoggedIn = true)
    (h3 : w.wasLoggedIn = true) :
    watcherTick a w st ad now =
      ({ w with checkCount := w.checkCount + 1 }, st, [.checkStatus]) := by
  unfold watcherTick
  rw [if_neg hc, hs]
  simp [h1, h2, h3]

theorem watcherTick_logout (a : String) (w : WatcherState) (st : BMState)
    (s : Session) (ad : AdapterOutcome) (now : Nat)
    (hc : ¬ maxChecks < w.checkCount + 1)
    (hs : alookup a st.activeBrowsers = some s)
    (h1 : (checkLoginStatus (some s) ad).success = true)
    (h2 : (checkLoginStatus (some s) ad).isLoggedIn = false)
    (h3 : w.wasLoggedIn = true) :
    watcherTick a w st ad now =
      ({ w with checkCount := w.checkCount + 1, wasLoggedIn := false },
       { st with
           activeBrowsers := updateKey a { s with isLoggedIn := false } st.activeBrowsers },
       [.checkStatus, .logLogout]) := by
  unfold watcherTick
  rw [if_neg hc, hs]
  simp [h1, h2, h3]

theorem watcherTick_active_check (a : String) (w : WatcherState) (st : BMState)
    (s : Session) (ad : AdapterOutcome) (now : Nat)
    (hc : ¬ maxChecks < w.checkCount + 1)
    (hs : alookup a st.activeBrowsers = some s) :
    countChecks (watcherTick a w st ad now).2.2 = 1 ∧
    (watcherTick a w st ad now).1.checkCount = w.checkCount + 1 := by
  unfold watcherTick
  rw [if_neg hc, hs]
  dsimp only
  split_ifs <;> simp [countChecks]

theorem runWatcher_checks_bound (a : String) (l : List (AdapterOutcome × Nat)) :
    ∀ w st, ((runWatcher a w st l).2.2.map countChecks).sum ≤ maxChecks - w.checkCount := by
  induction l with
  | nil =>
    intro w st
    simp [runWatcher]
  | cons p rest ih =>
    intro w st
    obtain ⟨ad, now⟩ := p
    by_cases hstop : w.stopped = true
    · simp [runWatcher, hstop]
    · by_cases hc : maxChecks < w.checkCount + 1
      · have ht := watcherTick_timeout a w st ad now hc
        simp only [runWatcher, ht]
        rw [if_neg hstop, runWatcher_stopped rest rfl]
        simp [countChecks]
      · cases hsess : alookup a st.activeBrowsers with
        | none =>
          have ht := watcherTick_closed a w st ad now hc hsess
          simp only [runWatcher, ht]
          rw [if_neg hstop, runWatcher_stopped rest rfl]
          simp [countChecks]
        | some s =>
          obtain ⟨he, hcnt⟩ := watcherTick_active_check a w st s ad now hc hsess
          have hrest := ih (watcherTick a w st ad now).1 (watcherTick a w st ad now).2.1
          rw [hcnt] at hrest
          have hmc : w.checkCount + 1 ≤ maxChecks := Nat.not_lt.mp hc
          simp only [runWatcher]
          rw [if_neg hstop]
          simp only [List.map_cons, List.sum_cons, he]
          omega

/-! ### Concrete fixtures used by witnesses and scenarios -/

def demoFingerprint : Fingerprint :=
  { screen :=
      { width := 1920, height := 1080, availWidth := 1920, availHeight := 1040,
        colorDepth := 24, pixelDepth := 24, devicePixelRatio := 1 }
    navigator :=
      { userAgent := "ua", platform := "Win32", language := "zh-CN",
        languages := ["zh-CN", "zh"], hardwareConcurrency := 8, deviceMemory := 8,
        maxTouchPoints := 0, vendor := "Google Inc.", doNotTrack := none }
    timezone := { id := "Asia/Shanghai", offset := -480 }
    webgl := ⟨"v", "r"⟩
    canvas := { noise := 0, seed := "s" }
    audio := { noise := 0 }
    fonts := []
    generatedAt := 0 }

def demoSession : Session :=
  { fingerprint := demoFingerprint
    proxy := none
    platformId := some "netease"
    userDataDir := getProfilePath "acct"
    launchedAt := 0
    contextOptions := buildContextOptions demoFingerprint none
    cookies := [] }

def demoBM : BMState := { activeBrowsers := [("acct", demoSession)] }

/-- The scripted capability of the specification scenario: the login
check reports false, false, true, true, false on ticks 1 to 5. -/
def scriptedTicks : List (AdapterOutcome × Nat) :=
  [(.status false, 1), (.status false, 2), (.status true, 3),
   (.status true, 4), (.status false, 5)]

/-! ### Claim C1 -/

/-- Claim C1: on every watcher tick below the check budget with the
session present, a false-to-true transition of the reported login state
fires the session-save side effect exactly once and sets
isLoggedIn=true and loginDetectedAt=now on the session (persisting the
context cookies); a further true result fires no save; a true-to-false
transition clears isLoggedIn and fires no save.  For the scripted
result sequence false,false,true,true,false the save fires exactly
once, on the third tick. -/
theorem C1_login_watcher_saves_once_per_transition :
    (∀ a w st s ad now, alookup a st.activeBrowsers = some s →
      ¬ maxChecks < w.checkCount + 1 →
      ((checkLoginStatus (some s) ad).success = true →
        (checkLoginStatus (some s) ad).isLoggedIn = true →
        w.wasLoggedIn = false →
        countSaves (watcherTick a w st ad now).2.2 = 1 ∧
        (watcherTick a w st ad now).1.wasLoggedIn = true ∧
        alookup a (watcherTick a w st ad now).2.1.activeBrowsers =
          some { s with isLoggedIn := true, loginDetectedAt := some now } ∧
        (watcherTick a w st ad now).2.1.cookieStore =
          storeSet a s.cookies st.cookieStore) ∧
      ((checkLoginStatus (some s) ad).success = true →
        (checkLoginStatus (some s) ad).isLoggedIn = true →
        w.wasLoggedIn = true →
        countSaves (watcherTick a w st ad now).2.2 = 0 ∧
        (watcherTick a w st ad now).2.1 = st) ∧
      ((checkLoginStatus (some s) ad).success = true →
        (checkLoginStatus (some s) ad).isLoggedIn = false →
        w.wasLoggedIn = true →
        countSaves (watcherTick a w st ad now).2.2 = 0 ∧
        (watcherTick a w st ad now).1.wasLoggedIn = false ∧
        alookup a (watcherTick a w st ad now).2.1.activeBrowsers =
          some { s with isLoggedIn := false } ∧
        (watcherTick a w st ad now).2.1.cookieStore = st.cookieStore)) ∧
    (runWatcher "acct" {} demoBM scriptedTicks).2.2.map countSaves = [0, 0, 1, 0, 0] := by
  constructor
  · intro a w st s ad now hs hc
    refine ⟨?_, ?_, ?_⟩
    · intro h1 h2 h3
      rw [watcherTick_login_detected a w st s ad now hc hs h1 h2 h3]
      refine ⟨by simp [countSaves], rfl, ?_, rfl⟩
      exact alookup_updateKey_self hs
    · intro h1 h2 h3
      rw [watcherTick_still_logged_in a w st s ad now hc hs h1 h2 h3]
      exact ⟨by simp [countSaves], rfl⟩
    · intro h1 h2 h3
      rw [watcherTick_logout a w st s ad now hc hs h1 h2 h3]
      refine ⟨by simp [countSaves], rfl, ?_, rfl⟩
      exact alookup_updateKey_self hs
  · decide

/-- Witness for C1 at a concrete tick: in the demo state, a successful
true result on a not-yet-logged-in watcher saves exactly once and marks
the session. -/
theorem C1_login_watcher_saves_once_per_transition_witness :
    countSaves (watcherTick "acct" {} demoBM (.status true) 3).2.2 = 1 ∧
    (watcherTick "acct" {} demoBM (.status true) 3).1.wasLoggedIn = true ∧
    alookup "acct" (watcherTick "acct" {} demoBM (.status true) 3).2.1.activeBrowsers =
      some { demoSession with isLoggedIn := true, loginDetectedAt := some 3 } ∧
    (watcherTick "acct" {} demoBM (.status true) 3).2.1.cookieStore =
      storeSet "acct" demoSession.cookies demoBM.cookieStore := by
  have h := (C1_login_watcher_saves_once_per_transition.1 "acct" {} demoBM demoSession
    (.status true) 3 (by rfl) (by decide)).1 (by rfl) (by rfl) (by rfl)
  exact h

/-! ### Claim C5 -/

/-- Claim C5: the login watcher is bounded.  It ticks at a fixed
1-second interval; over any tick sequence it performs at most 120
login-status checks; a tick past the budget stops the watcher itself
(clearing its registry entry) without checking; and a tick that finds
the session gone stops the watcher immediately, touching neither the
session map nor any other state and performing no check and no save. -/
theorem C5_login_watcher_bounded :
    watcherIntervalMs = 1000 ∧ maxChecks = 120 ∧
    (∀ a st l, ((runWatcher a {} st l).2.2.map countChecks).sum ≤ 120) ∧
    (∀ a w st ad now, maxChecks < w.checkCount + 1 →
      (watcherTick a w st ad now).1.stopped = true ∧
      alookup a (watcherTick a w st ad now).2.1.loginWatchers = none ∧
      countChecks (watcherTick a w st ad now).2.2 = 0 ∧
      countSaves (watcherTick a w st ad now).2.2 = 0) ∧
    (∀ a w st ad now, ¬ maxChecks < w.checkCount + 1 →
      alookup a st.activeBrowsers = none →
      (watcherTick a w st ad now).1.stopped = true ∧
      (watcherTick a w st ad now).2.1.activeBrowsers = st.activeBrowsers ∧
      alookup a (watcherTick a w st ad now).2.1.loginWatchers = none ∧
      countChecks (watcherTick a w st ad now).2.2 = 0 ∧
      countSaves (watcherTick a w st ad now).2.2 = 0) := by
  refine ⟨rfl, rfl, ?_, ?_, ?_⟩
  · intro a st l
    simpa using runWatcher_checks_bound a l {} st
  · intro a w st ad now hc
    rw [watcherTick_timeout a w st ad now hc]
    exact ⟨rfl, stopLoginWatcher_lookup_none a st, by simp [countChecks], by simp [countSaves]⟩
  · intro a w st ad now hc hs
    rw [watcherTick_closed a w st ad now hc hs]
    exact ⟨rfl, stopLoginWatcher_activeBrowsers a st, stopLoginWatcher_lookup_none a st,
      by simp [countChecks], by simp [countSaves]⟩

/-- Witness for C5 at concrete inputs: the scripted five-tick run stays
within the check budget; a tick at checkCount 120 stops the watcher
without checking; a tick with no session stops without touching the
(empty) session map. -/
theorem C5_login_watcher_bounded_witness :
    (((runWatcher "acct" {} demoBM scriptedTicks).2.2.map countChecks).sum ≤ 120) ∧
    ((watcherTick "acct" { checkCount := 120 } demoBM (.status true) 9).1.stopped = true ∧
      countChecks (watcherTick "acct" { checkCount := 120 } demoBM (.status true) 9).2.2 = 0) ∧
    ((watcherTick "nobody" {} emptyBM (.status true) 9).1.stopped = true ∧
      (watcherTick "nobody" {} emptyBM (.status true) 9).2.1.activeBrowsers =
        emptyBM.activeBrowsers) := by
  have h := C5_login_watcher_bounded
  refine ⟨h.2.2.1 "acct" demoBM scriptedTicks, ?_, ?_⟩
  · have h4 := h.2.2.2.1 "acct" { checkCount := 120 } demoBM (.status true) 9 (by decide)
    exact ⟨h4.1, h4.2.2.1⟩
  · have h5 := h.2.2.2.2 "nobody" {} emptyBM (.status true) 9 (by decide) (by rfl)
    exact ⟨h5.1, h5.2.1⟩

/-! ### Claim C9 (corrected) -/

/-- Claim C9 as amended: on every tick below the budget with the session
present on which the login-status check fails with an exception, the
watcher continues to the next tick (the state is untouched and the
interval is not cleared) but the error is silently ignored: the tick
emits no log line at all.  The original claim said the error is logged;
the catch block of checkLoginStatus returns a failure result without
logging and the catch block of the tick body is empty. -/
theorem C9_watcher_tick_error_silently_ignored (a : String) (w : WatcherState)
    (st : BMState) (s : Session) (msg : String) (now : Nat)
    (hs : alookup a st.activeBrowsers = some s)
    (hc : ¬ maxChecks < w.checkCount + 1) :
    watcherTick a w st (.failure msg) now =
      ({ w with checkCount := w.checkCount + 1 }, st, [.checkStatus]) ∧
    (watcherTick a w st (.failure msg) now).2.2.filter isLogEvent = [] ∧
    (watcherTick a w st (.failure msg) now).1.stopped = w.stopped := by
  have heq : watcherTick a w st (.failure msg) now =
      ({ w with checkCount := w.checkCount + 1 }, st, [.checkStatus]) := by
    unfold watcherTick
    rw [if_neg hc, hs]
    simp [checkLoginStatus]
  exact ⟨heq, by rw [heq]; rfl, by rw [heq]⟩

/-- Witness for C9 (amended) at a concrete tick. -/
theorem C9_watcher_tick_error_silently_ignored_witness :
    watcherTick "acct" {} demoBM (.failure "boom") 7 =
      ({ wasLoggedIn := false, checkCount := 1, stopped := false }, demoBM,
       [.checkStatus]) ∧
    (watcherTick "acct" {} demoBM (.failure "boom") 7).1.stopped = false := by
  have h := C9_watcher_tick_error_silently_ignored "acct" {} demoBM demoSession "boom" 7
    (by rfl) (by decide)
  exact ⟨h.1, h.2.2⟩

/-- Counterexample to C9 as stated: on a concrete tick whose login
check fails with an exception, the tick emits no log line whatsoever
(refuting that the error is logged), even though the loop does continue
and still detects the login on the following tick. -/
theorem C9_watcher_tick_error_not_logged_counterexample :
    (watcherTick "acct" {} demoBM (.failure "boom") 7).2.2.filter isLogEvent = [] ∧
    (watcherTick "acct" {} demoBM (.failure "boom") 7).1.stopped = false ∧
    (runWatcher "acct" {} demoBM
      [(.failure "boom", 1), (.status true, 2)]).2.2.map countSaves = [0, 1] := by
  decide

/-! ### Claim C6: the Cloudflare challenge loop -/

theorem pollIdxs_nil : pollIdxs [] = [] := rfl

theorem pollIdxs_cons_poll (i : Nat) (es : List CfEvent) :
    pollIdxs (.pollChallenge i :: es) = i :: pollIdxs es := rfl

theorem pollIdxs_cons_inject (i : Nat) (es : List CfEvent) :
    pollIdxs (.injectPointer i :: es) = pollIdxs es := rfl

theorem pollIdxs_cons_wait (ms : Nat) (es : List CfEvent) :
    pollIdxs (.wait ms :: es) = pollIdxs es := rfl

theorem pollIdxs_cons_initial (es : List CfEvent) :
    pollIdxs (.initialInject :: es) = pollIdxs es := rfl

theorem pollIdxs_cons_pause (es : List CfEvent) :
    pollIdxs (.humanPause :: es) = pollIdxs es := rfl

theorem injectIdxs_nil : injectIdxs [] = [] := rfl

theorem injectIdxs_cons_poll (i : Nat) (es : List CfEvent) :
    injectIdxs (.pollChallenge i :: es) = injectIdxs es := rfl

theorem injectIdxs_cons_inject (i : Nat) (es : List CfEvent) :
    injectIdxs (.injectPointer i :: es) = i :: injectIdxs es := rfl

theorem injectIdxs_cons_wait (ms : Nat) (es : List CfEvent) :
    injectIdxs (.wait ms :: es) = injectIdxs es := rfl

theorem injectIdxs_cons_initial (es : List CfEvent) :
    injectIdxs (.initialInject :: es) = injectIdxs es := rfl

theorem injectIdxs_cons_pause (es : List CfEvent) :
    injectIdxs (.humanPause :: es) = injectIdxs es := rfl

theorem waitsOf_nil : waitsOf [] = [] := rfl

theorem waitsOf_cons_poll (i : Nat) (es : List CfEvent) :
    waitsOf (.pollChallenge i :: es) = waitsOf es := rfl

theorem waitsOf_cons_inject (i : Nat) (es : List CfEvent) :
    waitsOf (.injectPointer i :: es) = waitsOf es := rfl

theorem waitsOf_cons_wait (ms : Nat) (es : List CfEvent) :
    waitsOf (.wait ms :: es) = ms :: waitsOf es := rfl

theorem waitsOf_cons_initial (es : List CfEvent) :
    waitsOf (.initialInject :: es) = waitsOf es := rfl

theorem waitsOf_cons_pause (es : List CfEvent) :
    waitsOf (.humanPause :: es) = waitsOf es := rfl

theorem cfLoop_succ_true_inj (poll : Nat → Bool) (attempt n : Nat)
    (hp : poll attempt = true) (h3 : attempt % 3 = 0) :
    cfLoop poll attempt (n + 1) =
      ((cfLoop poll (attempt + 1) n).1,
       .pollChallenge attempt :: .injectPointer attempt :: .wait cfWaitMs ::
         (cfLoop poll (attempt + 1) n).2) := by
  simp only [cfLoop, hp, if_true]
  rw [if_pos h3]
  simp

theorem cfLoop_succ_true_noinj (poll : Nat → Bool) (attempt n : Nat)
    (hp : poll attempt = true) (h3 : ¬ attempt % 3 = 0) :
    cfLoop poll attempt (n + 1) =
      ((cfLoop poll (attempt + 1) n).1,
       .pollChallenge attempt :: .wait cfWaitMs :: (cfLoop poll (attempt + 1) n).2) := by
  simp only [cfLoop, hp, if_true]
  rw [if_neg h3]
  simp

theorem cfLoop_succ_false (poll : Nat → Bool) (attempt n : Nat)
    (hp : poll attempt = false) :
    cfLoop poll attempt (n + 1) = (true, [.pollChallenge attempt, .humanPause]) := by
  simp [cfLoop, hp]

theorem cfLoop_polls_length_le (poll : Nat → Bool) :
    ∀ fuel attempt, (pollIdxs (cfLoop poll attempt fuel).2).length ≤ fuel := by
  intro fuel
  induction fuel with
  | zero => intro attempt; simp [cfLoop, pollIdxs_nil]
  | succ n ih =>
    intro attempt
    by_cases hp : poll attempt = true
    · by_cases h3 : attempt % 3 = 0
      · rw [cfLoop_succ_true_inj poll attempt n hp h3, pollIdxs_cons_poll,
          pollIdxs_cons_inject, pollIdxs_cons_wait]
        have := ih (attempt + 1)
        simp only [List.length_cons]
        omega
      · rw [cfLoop_succ_true_noinj poll attempt n hp h3, pollIdxs_cons_poll,
          pollIdxs_cons_wait]
        have := ih (attempt + 1)
        simp only [List.length_cons]
        omega
    · rw [cfLoop_succ_false poll attempt n (by simpa using hp)]
      simp [pollIdxs_cons_poll, pollIdxs_cons_pause, pollIdxs_nil]

theorem cfLoop_all_true (poll : Nat → Bool) :
    ∀ fuel attempt, (∀ j, attempt ≤ j → j < attempt + fuel → poll j = true) →
      (cfLoop poll attempt fuel).1 = false ∧
      (pollIdxs (cfLoop poll attempt fuel).2).length = fuel := by
  intro fuel
  induction fuel with
  | zero => intro attempt _; simp [cfLoop, pollIdxs_nil]
  | succ n ih =>
    intro attempt h
    have hp : poll attempt = true := h attempt le_rfl (by omega)
    have hrest := ih (attempt + 1) (fun j hj1 hj2 => h j (by omega) (by omega))
    by_cases h3 : attempt % 3 = 0
    · rw [cfLoop_succ_true_inj poll attempt n hp h3, pollIdxs_cons_poll,
        pollIdxs_cons_inject, pollIdxs_cons_wait]
      simp only [List.length_cons]
      exact ⟨hrest.1, by omega⟩
    · rw [cfLoop_succ_true_noinj poll attempt n hp h3, pollIdxs_cons_poll,
        pollIdxs_cons_wait]
      simp only [List.length_cons]
      exact ⟨hrest.1, by omega⟩

theorem cfLoop_first_false (poll : Nat → Bool) :
    ∀ fuel attempt i0, attempt ≤ i0 → i0 < attempt + fuel → poll i0 = false →
      (∀ j, attempt ≤ j → j < i0 → poll j = true) →
      (cfLoop poll attempt fuel).1 = true ∧
      (pollIdxs (cfLoop poll attempt fuel).2).length = i0 + 1 - attempt := by
  intro fuel
  induction fuel with
  | zero => intro attempt i0 h1 h2 _ _; omega
  | succ n ih =>
    intro attempt i0 h1 h2 hf hall
    by_cases he : attempt = i0
    · subst he
      rw [cfLoop_succ_false poll attempt n hf]
      simp [pollIdxs_cons_poll, pollIdxs_cons_pause, pollIdxs_nil]
    · have hp : poll attempt = true := hall attempt le_rfl (by omega)
      have hrest := ih (attempt + 1) i0 (by omega) (by omega) hf
        (fun j hj1 hj2 => hall j (by omega) hj2)
      by_cases h3 : attempt % 3 = 0
      · rw [cfLoop_succ_true_inj poll attempt n hp h3, pollIdxs_cons_poll,
          pollIdxs_cons_inject, pollIdxs_cons_wait]
        simp only [List.length_cons]
        exact ⟨hrest.1, by omega⟩
      · rw [cfLoop_succ_true_noinj poll attempt n hp h3, pollIdxs_cons_poll,
          pollIdxs_cons_wait]
        simp only [List.length_cons]
        exact ⟨hrest.1, by omega⟩

theorem cfLoop_injects (poll : Nat → Bool) :
    ∀ fuel attempt, injectIdxs (cfLoop poll attempt fuel).2 =
      (pollIdxs (cfLoop poll attempt fuel).2).filter
        (fun i => poll i && decide (i % 3 = 0)) := by
  intro fuel
  induction fuel with
  | zero => intro attempt; simp [cfLoop, pollIdxs_nil, injectIdxs_nil]
  | succ n ih =>
    intro attempt
    by_cases hp : poll attempt = true
    · by_cases h3 : attempt % 3 = 0
      · rw [cfLoop_succ_true_inj poll attempt n hp h3, pollIdxs_cons_poll,
          pollIdxs_cons_inject, pollIdxs_cons_wait, injectIdxs_cons_poll,
          injectIdxs_cons_inject, injectIdxs_cons_wait, ih (attempt + 1)]
        simp [List.filter_cons, hp, h3]
      · rw [cfLoop_succ_true_noinj poll attempt n hp h3, pollIdxs_cons_poll,
          pollIdxs_cons_wait, injectIdxs_cons_poll, injectIdxs_cons_wait,
          ih (attempt + 1)]
        simp [List.filter_cons, hp, h3]
    · rw [cfLoop_succ_false poll attempt n (by simpa using hp)]
      simp [pollIdxs_cons_poll, pollIdxs_cons_pause, pollIdxs_nil,
        injectIdxs_cons_poll, injectIdxs_cons_pause, injectIdxs_nil,
        List.filter_cons, hp]

theorem cfLoop_waits (poll : Nat → Bool) :
    ∀ fuel attempt, waitsOf (cfLoop poll attempt fuel).2 =
      List.replicate ((pollIdxs (cfLoop poll attempt fuel).2).countP
        (fun i => poll i)) cfWaitMs := by
  intro fuel
  induction fuel with
  | zero => intro attempt; simp [cfLoop, pollIdxs_nil, waitsOf_nil]
  | succ n ih =>
    intro attempt
    by_cases hp : poll attempt = true
    · by_cases h3 : attempt % 3 = 0
      · rw [cfLoop_succ_true_inj poll attempt n hp h3, pollIdxs_cons_poll,
          pollIdxs_cons_inject, pollIdxs_cons_wait, waitsOf_cons_poll,
          waitsOf_cons_inject, waitsOf_cons_wait, ih (attempt + 1)]
        simp [List.countP_cons, hp, List.replicate_succ]
      · rw [cfLoop_succ_true_noinj poll attempt n hp h3, pollIdxs_cons_poll,
          pollIdxs_cons_wait, waitsOf_cons_poll, waitsOf_cons_wait, ih (attempt + 1)]
        simp [List.countP_cons, hp, List.replicate_succ]
    · rw [cfLoop_succ_false poll attempt n (by simpa using hp)]
      simp [pollIdxs_cons_poll, pollIdxs_cons_pause, pollIdxs_nil,
        waitsOf_cons_poll, waitsOf_cons_pause, waitsOf_nil, List.countP_cons, hp]

/-- Claim C6: the challenge-wait loop is bounded.  It polls the
challenge predicate at most cfMaxAttempts = 12 times with a 5000 ms
wait after each still-challenged poll; it returns true as soon as the
predicate first reports the page is no longer a challenge; it returns
false when all 12 attempts remain challenged; and the synthetic pointer
movement is injected exactly on the still-challenged attempts whose
index is divisible by 3. -/
theorem C6_challenge_wait_loop_bounded (poll : Nat → Bool) :
    cfMaxAttempts = 12 ∧ cfWaitMs = 5000 ∧
    (pollIdxs (handleCloudflareChallenge poll).2).length ≤ 12 ∧
    ((∀ i, i < 12 → poll i = true) →
      (handleCloudflareChallenge poll).1 = false ∧
      (pollIdxs (handleCloudflareChallenge poll).2).length = 12) ∧
    (∀ i0, i0 < 12 → poll i0 = false → (∀ j, j < i0 → poll j = true) →
      (handleCloudflareChallenge poll).1 = true ∧
      (pollIdxs (handleCloudflareChallenge poll).2).length = i0 + 1) ∧
    injectIdxs (handleCloudflareChallenge poll).2 =
      (pollIdxs (handleCloudflareChallenge poll).2).filter
        (fun i => poll i && decide (i % 3 = 0)) ∧
    waitsOf (handleCloudflareChallenge poll).2 =
      List.replicate ((pollIdxs (handleCloudflareChallenge poll).2).countP
        (fun i => poll i)) 5000 := by
  have hpi : pollIdxs (handleCloudflareChallenge poll).2 =
      pollIdxs (cfLoop poll 0 cfMaxAttempts).2 := by
    simp [handleCloudflareChallenge, pollIdxs]
  have hii : injectIdxs (handleCloudflareChallenge poll).2 =
      injectIdxs (cfLoop poll 0 cfMaxAttempts).2 := by
    simp [handleCloudflareChallenge, injectIdxs]
  have hwi : waitsOf (handleCloudflareChallenge poll).2 =
      waitsOf (cfLoop poll 0 cfMaxAttempts).2 := by
    simp [handleCloudflareChallenge, waitsOf]
  have hres : (handleCloudflareChallenge poll).1 = (cfLoop poll 0 cfMaxAttempts).1 := by
    simp [handleCloudflareChallenge]
  refine ⟨rfl, rfl, ?_, ?_, ?_, ?_, ?_⟩
  · rw [hpi]
    exact cfLoop_polls_length_le poll cfMaxAttempts 0
  · intro h
    rw [hres, hpi]
    exact cfLoop_all_true poll cfMaxAttempts 0
      (fun j _ hj2 => h j (by simpa [cfMaxAttempts] using hj2))
  · intro i0 h1 h2 h3
    rw [hres, hpi]
    have := cfLoop_first_false poll cfMaxAttempts 0 i0 (Nat.zero_le i0)
      (by simp only [cfMaxAttempts]; omega) h2 (fun j _ hj2 => h3 j hj2)
    simpa using this
  · rw [hii, hpi]
    exact cfLoop_injects poll cfMaxAttempts 0
  · rw [hwi, hpi]
    exact cfLoop_waits poll cfMaxAttempts 0

/-- Witness for C6 at a concrete predicate (challenged on attempts 0
and 1, cleared at attempt 2): the loop returns true after 3 polls. -/
theorem C6_challenge_wait_loop_bounded_witness :
    (handleCloudflareChallenge (fun i => decide (i < 2))).1 = true ∧
    (pollIdxs (handleCloudflareChallenge (fun i => decide (i < 2))).2).length = 2 + 1 := by
  exact (C6_challenge_wait_loop_bounded (fun i => decide (i < 2))).2.2.2.2.1 2
    (by omega) (by decide) (fun j hj => decide_eq_true hj)

/-! ### Claim C2: idempotent launch -/

/-- Claim C2: when the account already has an entry in the active
session map, launchBrowser returns success with the already-active
message, leaves the whole state unchanged (in particular the session
map and the fingerprint store), loads no fingerprint and opens no
browser context. -/
theorem C2_launch_idempotent (inp : LaunchInput) (r : FpRand)
    (lo : Except String Unit) (now : Nat) (st : BMState) (s : Session)
    (hs : alookup inp.accountId st.activeBrowsers = some s) :
    launchBrowser inp r lo now st =
      ({ success := true, accountId := inp.accountId,
         message := some "Browser already active" }, st, []) := by
  unfold launchBrowser
  rw [hs]
  simp

/-- Witness for C2: relaunching the demo account returns the
already-active result and changes nothing. -/
theorem C2_launch_idempotent_witness :
    launchBrowser { accountId := "acct" } {} (.ok ()) 5 demoBM =
      ({ success := true, accountId := "acct",
         message := some "Browser already active" }, demoBM, []) :=
  C2_launch_idempotent { accountId := "acct" } {} (.ok ()) 5 demoBM demoSession rfl

/-! ### Claim C3: fingerprint load-or-create is idempotent -/

/-- Claim C3: loadOrCreateFingerprint returns an already-persisted
fingerprint unchanged without touching the store, and for a
previously-unseen account a second call returns exactly the fingerprint
the first call generated and persisted. -/
theorem C3_fingerprint_idempotent :
    (∀ a fp store r, alookup a store = some fp →
      loadOrCreateFingerprint a r store = (fp, store)) ∧
    (∀ a store r1 r2, alookup a store = none →
      loadOrCreateFingerprint a r2 (loadOrCreateFingerprint a r1 store).2 =
        ((loadOrCreateFingerprint a r1 store).1,
         (loadOrCreateFingerprint a r1 store).2)) := by
  constructor
  · intro a fp store r hs
    unfold loadOrCreateFingerprint
    rw [hs]
  · intro a store r1 r2 hs
    have h1 : loadOrCreateFingerprint a r1 store =
        (generateFingerprint {} r1, storeSet a (generateFingerprint {} r1) store) := by
      unfold loadOrCreateFingerprint
      rw [hs]
    rw [h1]
    unfold loadOrCreateFingerprint
    rw [alookup_storeSet_self]

/-- Witness for C3: on an empty store, a second call for the same
account (with different randomness) returns what the first call
persisted. -/
theorem C3_fingerprint_idempotent_witness :
    loadOrCreateFingerprint "acct" { canvasSeed := "other" }
        (loadOrCreateFingerprint "acct" {} []).2 =
      ((loadOrCreateFingerprint "acct" {} []).1,
       (loadOrCreateFingerprint "acct" {} []).2) :=
  C3_fingerprint_idempotent.2 "acct" [] {} { canvasSeed := "other" } rfl

/-! ### Claim C4: operations on a missing session -/

/-- Claim C4: every per-session operation invoked for an account with no
entry in the session map returns the structured not-found failure
result (success=false with the no-active-browser error) and leaves the
state unchanged. -/
theorem C4_missing_session_not_found (a : String) (st : BMState)
    (hs : alookup a st.activeBrowsers = none) :
    (∀ saveFlag co, closeBrowser a saveFlag co st =
      ({ success := false, error := some noBrowserMsg }, st)) ∧
    (∀ url watch go cfD cfP, navigateTo a url watch go cfD cfP st =
      ({ success := false, error := some noBrowserMsg }, st)) ∧
    saveSession a st = ({ success := false, error := some noBrowserMsg }, st) ∧
    (∀ so now, takeScreenshot a so now st =
      ({ success := false, error := some noBrowserMsg }, st)) ∧
    (∀ eo, executeScript a eo st =
      ({ success := false, error := some noBrowserMsg }, st)) := by
  refine ⟨?_, ?_, ?_, ?_, ?_⟩
  · intro saveFlag co
    unfold closeBrowser
    rw [hs]
  · intro url watch go cfD cfP
    unfold navigateTo
    rw [hs]
  · unfold saveSession
    rw [hs]
  · intro so now
    unfold takeScreenshot
    rw [hs]
  · intro eo
    unfold executeScript
    rw [hs]

/-- Witness for C4 on the empty state: closing a nonexistent account
fails with the not-found error and leaves the session map unchanged. -/
theorem C4_missing_session_not_found_witness :
    closeBrowser "nobody" true (.ok ()) emptyBM =
      ({ success := false, error := some noBrowserMsg }, emptyBM) ∧
    navigateTo "nobody" "https://example.com" true (.ok ()) false (fun _ => false) emptyBM =
      ({ success := false, error := some noBrowserMsg }, emptyBM) ∧
    saveSession "nobody" emptyBM = ({ success := false, error := some noBrowserMsg }, emptyBM) := by
  have h := C4_missing_session_not_found "nobody" emptyBM rfl
  exact ⟨h.1 true (.ok ()), h.2.1 "https://example.com" true (.ok ()) false (fun _ => false),
    h.2.2.1⟩

/-! ### Claim C8: distinguishable launch failure -/

/-- Claim C8: when the underlying persistent-context launch throws, the
result is a failure that carries the dedicated Chrome-not-installed
message exactly when the exception message contains the
missing-executable marker, and otherwise carries the exception message
verbatim; in both cases no session map entry is created. -/
theorem C8_launch_failure_distinguishable (inp : LaunchInput) (r : FpRand)
    (now : Nat) (st : BMState) (e : String)
    (hs : alookup inp.accountId st.activeBrowsers = none) :
    (launchBrowser inp r (.error e) now st).1.success = false ∧
    (launchBrowser inp r (.error e) now st).1.error =
      some (if strIncludes e execMissingPat then chromeNotInstalledMsg else e) ∧
    (launchBrowser inp r (.error e) now st).2.1.activeBrowsers = st.activeBrowsers ∧
    (launchBrowser inp r (.error e) now st).2.2 = [.loadFingerprint] := by
  unfold launchBrowser
  rw [hs]
  simp

/-- Witness for C8: a missing-executable exception maps to the
Chrome-not-installed message, any other exception is passed through,
and the session map stays empty. -/
theorem C8_launch_failure_distinguishable_witness :
    (launchBrowser { accountId := "x" } {}
        (.error "browserType.launchPersistentContext: Executable doesn\x27t exist at /opt/chrome")
        0 emptyBM).1.error = some chromeNotInstalledMsg ∧
    (launchBrowser { accountId := "x" } {} (.error "boom") 0 emptyBM).1.error =
      some "boom" ∧
    (launchBrowser { accountId := "x" } {} (.error "boom") 0 emptyBM).2.1.activeBrowsers = [] := by
  have h1 := C8_launch_failure_distinguishable { accountId := "x" } {} 0 emptyBM
    "browserType.launchPersistentContext: Executable doesn\x27t exist at /opt/chrome" rfl
  have h2 := C8_launch_failure_distinguishable { accountId := "x" } {} 0 emptyBM "boom" rfl
  refine ⟨h1.2.1.trans (by decide), h2.2.1.trans (by decide), h2.2.2.1⟩

/-! ### Claim C7: fingerprint internal consistency -/

theorem randomChoice_mem (arr : List α) (dflt : α) (i : Nat) (h : arr ≠ []) :
    randomChoice arr dflt i ∈ arr := by
  unfold randomChoice
  have hlen : i % arr.length < arr.length := Nat.mod_lt _ (List.length_pos.mpr h)
  rw [List.getD_eq_getElem?_getD, List.getElem?_eq_getElem hlen, Option.getD_some]
  exact List.getElem_mem hlen

/-- Claim C7: every generated fingerprint is internally consistent.
A user agent containing Macintosh yields platform MacIntel, a
Mac-range hardware concurrency (8, 10 or 12) and zero touch points;
any other user agent yields Win32 and the Windows ranges; and the
geolocation placed in the context options — both by
applyFingerprintToContext and by the contextOptions launchBrowser
builds from it — is the location associated with the timezone chosen
for the fingerprint. -/
theorem C7_fingerprint_internally_consistent (opts : FpOptions) (r : FpRand) :
    (strIncludes (generateFingerprint opts r).navigator.userAgent "Macintosh" = true →
      (generateFingerprint opts r).navigator.platform = "MacIntel" ∧
      (generateFingerprint opts r).navigator.hardwareConcurrency ∈ ([8, 10, 12] : List Nat) ∧
      (generateFingerprint opts r).navigator.maxTouchPoints = 0) ∧
    (strIncludes (generateFingerprint opts r).navigator.userAgent "Macintosh" = false →
      (generateFingerprint opts r).navigator.platform = "Win32" ∧
      (generateFingerprint opts r).navigator.hardwareConcurrency ∈ ([4, 8, 12, 16] : List Nat) ∧
      (generateFingerprint opts r).navigator.maxTouchPoints ∈ ([0, 5, 10] : List Nat)) ∧
    (applyFingerprintToContext (generateFingerprint opts r)).geolocation =
      getGeolocationFromTimezone (generateFingerprint opts r).timezone.id ∧
    (∀ proxy, (buildContextOptions (generateFingerprint opts r) proxy).geolocation =
      getGeolocationFromTimezone (generateFingerprint opts r).timezone.id) := by
  refine ⟨?_, ?_, rfl, ?_⟩
  · intro h
    simp only [generateFingerprint] at h ⊢
    rw [h]
    refine ⟨rfl, ?_, rfl⟩
    simpa using randomChoice_mem [8, 10, 12] 8 r.hwIdx (by simp)
  · intro h
    simp only [generateFingerprint] at h ⊢
    rw [h]
    refine ⟨rfl, ?_, ?_⟩
    · simpa using randomChoice_mem [4, 8, 12, 16] 4 r.hwIdx (by simp)
    · simpa using randomChoice_mem [0, 5, 10] 0 r.touchIdx (by simp)
  · intro proxy
    unfold buildContextOptions
    cases proxy with
    | none => rfl
    | some p =>
      obtain ⟨proto, host, port, pu, pp⟩ := p
      cases pu <;> cases pp <;> simp only [applyFingerprintToContext] <;>
        first | rfl | (split_ifs <;> rfl)

/-- A Macintosh user-agent override, used as a test input. -/
def macOpts : FpOptions := { userAgent := some "Macintosh test" }

/-- A Windows user-agent override with a Tokyo timezone, used as a
test input. -/
def winOpts : FpOptions :=
  { userAgent := some "Windows NT test", timezone := some "Asia/Tokyo" }

/-- Witness for C7 at concrete overrides: a Macintosh user agent gives
the Mac-consistent derived fields, a Windows user agent the
Win32-consistent ones, and the context geolocation tracks the chosen
timezone. -/
theorem C7_fingerprint_internally_consistent_witness :
    (generateFingerprint macOpts {}).navigator.platform = "MacIntel" ∧
    (generateFingerprint macOpts {}).navigator.maxTouchPoints = 0 ∧
    (generateFingerprint winOpts {}).navigator.platform = "Win32" ∧
    (applyFingerprintToContext (generateFingerprint winOpts {})).geolocation =
      getGeolocationFromTimezone "Asia/Tokyo" := by
  have hmac := (C7_fingerprint_internally_consistent macOpts {}).1 (by decide)
  have hwin := (C7_fingerprint_internally_consistent winOpts {}).2.1 (by decide)
  have hgeo := (C7_fingerprint_internally_consistent winOpts {}).2.2.1
  exact ⟨hmac.1, hmac.2.2, hwin.1, hgeo.trans (by rfl)⟩

end Pubcast
